import Mathlib

/-!
Verification of the configuration-loading subsystem of `exam-app`.

The embedding follows `src/exam_app/config/setting.py` (the loader and its
schema check), `src/exam_app/config/exception.py` (the error taxonomy),
`src/exam_app/config/__init__.py` (the module-level cache and
`load_settings`) and `src/exam_app/__init__.py` (the process entry point).

JSON documents are modelled as ordered association lists of Python runtime
values, matching the insertion-ordered `dict[str, Any]` that `json.load`
produces.  Machine-level details (file handles, encodings) are abstracted
into a small `FsRead` alphabet describing what the filesystem hands to the
loader: a well-formed JSON object, a well-formed non-object document,
malformed text, absence of the file, or a non-`FileNotFoundError` OS error.
-/

namespace ExamApp

/-- Python runtime type tags relevant to the schema check: `type(value)`
distinguishes `bool` from `int` and `float` from `int`, which is exactly
what the `is not` comparison in `read_json_file` relies on. -/
inductive PyType where
  | str
  | int
  | bool
  | float
  | null
  | list
  | dict
deriving DecidableEq

/-- Python runtime values as they come out of `json.load`.  Container
values are kept opaque: the schema check only inspects their type tag, and
documents that pass the schema check hold only `str` and `int` values. -/
inductive PyValue where
  | str (s : String)
  | int (n : Int)
  | bool (b : Bool)
  | float (lit : String)
  | null
  | list
  | dict
deriving DecidableEq

/-- `type(value)` on a decoded JSON value. -/
def typeOf : PyValue → PyType
  | .str _ => .str
  | .int _ => .int
  | .bool _ => .bool
  | .float _ => .float
  | .null => .null
  | .list => .list
  | .dict => .dict

/-- A decoded JSON object: an insertion-ordered `dict[str, Any]`. -/
abbrev Settings := List (String × PyValue)

/-- `dict.keys()` in iteration order. -/
def keys (doc : Settings) : List String := doc.map Prod.fst

/-- `dict.get(k)`: first binding of `k` (parsed dicts bind each key once). -/
def lookup (doc : Settings) (k : String) : Option PyValue :=
  match doc with
  | [] => none
  | (k', v) :: rest => if k' = k then some v else lookup rest k

def kFileName : String := "file_name"

def kFontName : String := "font_name"

def kFontSize : String := "font_size"

def kWidth : String := "width"

def kHeight : String := "height"

def kPadding : String := "padding"

/-- `DEFAULT_SETTINGS` from `setting.py`: the canonical defaults, also the
type oracle for the schema check. -/
def DEFAULT_SETTINGS : Settings :=
  [(kFileName, .str "question.csv"),
   (kFontName, .str ""),
   (kFontSize, .int 18),
   (kWidth, .int 640),
   (kHeight, .int 480),
   (kPadding, .int 8)]

/-- `set(DEFAULT_SETTINGS.keys())` (kept as the ordered list; all uses are
set-like: membership, difference, extensional equality). -/
def defaultKeys : List String := keys DEFAULT_SETTINGS

/-- `type(DEFAULT_SETTINGS.get(key))`: the expected type of a key, `null`
(i.e. `NoneType`) when the key is not part of the schema, exactly as
`dict.get` returns `None` there. -/
def defaultTypeOf (k : String) : PyType :=
  match lookup DEFAULT_SETTINGS k with
  | some v => typeOf v
  | none => .null

/-- The `JsonSchemaError` hierarchy of `setting.py`: `RequiredKeysError`,
`UnwantedKeysError` and `InvalidValueTypeError` (named `InvalidTypeError`
in `exception.py`), with their structured payloads. -/
inductive JsonSchemaError where
  | requiredKeys (ks : List String)
  | unwantedKeys (ks : List String)
  | invalidValueType (key : String) (valueType : PyType) (defaultType : PyType)
deriving DecidableEq

/-- The `SettingValueError` hierarchy declared in `exception.py`. -/
inductive SettingValueError where
  | emptyFileName
  | invalidFontSize (v : Int)
  | invalidWidth (v : Int)
  | invalidHeight (v : Int)
  | invalidPadding (v : Int)
deriving DecidableEq

/-- Python exceptions that `read_json_file`'s `try` block does not catch:
a non-`FileNotFoundError` `OSError` from `open` (e.g. `PermissionError`),
and the `AttributeError` raised by `.keys()` when `json.load` yields a
well-formed document that is not an object. -/
inductive PyError where
  | osError
  | attributeError
deriving DecidableEq

/-- Python set equality `json_keys == default_keys`: mutual membership. -/
def sameKeySet (a b : List String) : Prop :=
  (∀ k ∈ a, k ∈ b) ∧ (∀ k ∈ b, k ∈ a)

instance (a b : List String) : Decidable (sameKeySet a b) := by
  unfold sameKeySet; infer_instance

/-- `default_keys.difference(json_keys)` (in the fixed default-key order). -/
def requiredKeysOf (doc : Settings) : List String :=
  defaultKeys.filter (fun k => decide (k ∉ keys doc))

/-- `json_keys.difference(default_keys)` (in document order). -/
def unwantedKeysOf (doc : Settings) : List String :=
  keys doc |>.filter (fun k => decide (k ∉ defaultKeys))

/-- The `for key, value in json_settings.items()` loop of `read_json_file`:
raise `InvalidValueTypeError` at the first value whose runtime type is not
identical to the type of the corresponding default value. -/
def typeCheckItems : Settings → Except JsonSchemaError Unit
  | [] => .ok ()
  | (k, v) :: rest =>
    if typeOf v = defaultTypeOf k then typeCheckItems rest
    else .error (.invalidValueType k (typeOf v) (defaultTypeOf k))

/-- The schema comparison of `read_json_file`: when the key sets agree,
run the per-key type check; otherwise raise `RequiredKeysError` if any
schema key is missing, else `UnwantedKeysError` if any extra key is
present (the fall-through accepting branch is unreachable since unequal
key sets leave one of the differences non-empty). -/
def checkSchema (doc : Settings) : Except JsonSchemaError Unit :=
  if sameKeySet (keys doc) defaultKeys then
    typeCheckItems doc
  else if requiredKeysOf doc = [] then
    if unwantedKeysOf doc = [] then .ok ()
    else .error (.unwantedKeys (unwantedKeysOf doc))
  else .error (.requiredKeys (requiredKeysOf doc))

/-- String field access on a schema-checked document. -/
def getStr (doc : Settings) (k : String) : String :=
  match lookup doc k with
  | some (.str s) => s
  | _ => ""

/-- Integer field access on a schema-checked document. -/
def getInt (doc : Settings) (k : String) : Int :=
  match lookup doc k with
  | some (.int n) => n
  | _ => 0

/-- Modelled from the spec: the value-validation stage of the `JsonFile`
class that `config/__init__.py` imports from `exam_app.config.setting` but
that is absent from `setting.py` under `src/`; `exception.py` declares its
error family.  Per spec section 4.3 the checks run in the fixed order
file_name, font_size, width, height, padding, stop at the first violation,
and report that single violation. -/
def validate_settings (doc : Settings) : Except SettingValueError Unit :=
  if getStr doc kFileName = "" then .error .emptyFileName
  else if getInt doc kFontSize < 0 then .error (.invalidFontSize (getInt doc kFontSize))
  else if getInt doc kWidth < 0 then .error (.invalidWidth (getInt doc kWidth))
  else if getInt doc kHeight < 0 then .error (.invalidHeight (getInt doc kHeight))
  else if getInt doc kPadding < 0 then .error (.invalidPadding (getInt doc kPadding))
  else .ok ()

/-- What the filesystem and JSON decoder hand to the loader. -/
inductive FileContent where
  | json (doc : Settings)
  | jsonNonObject (raw : String)
  | malformed (raw : String)
deriving DecidableEq

/-- One read attempt at the resolved path. -/
inductive FsRead where
  | found (c : FileContent)
  | notFound
  | ioError
deriving DecidableEq

/-- Observable outcome of one load: the returned value (or the uncaught
exception), the file written (content and JSON indent), how many schema
and value passes ran, and the logged (caught) schema or value error. -/
structure Outcome where
  result : Except PyError (Option Settings)
  written : Option (Settings × Nat)
  schemaChecks : Nat
  valueChecks : Nat
  loggedSchema : Option JsonSchemaError
  loggedValue : Option SettingValueError

/-- `read_json_file` from `setting.py`: parse the file, compare against the
schema, accept or log-and-return-`None`; on `FileNotFoundError` write the
defaults with `indent=4` and return them; `JSONDecodeError` and
`JsonSchemaError` are caught and logged; any other exception (generic
`OSError`, `AttributeError` on a non-object document) escapes the `try`. -/
def read_json_file (fs : FsRead) : Outcome :=
  match fs with
  | .notFound => ⟨.ok (some DEFAULT_SETTINGS), some (DEFAULT_SETTINGS, 4), 0, 0, none, none⟩
  | .ioError => ⟨.error .osError, none, 0, 0, none, none⟩
  | .found (.jsonNonObject _) => ⟨.error .attributeError, none, 0, 0, none, none⟩
  | .found (.malformed _) => ⟨.ok none, none, 0, 0, none, none⟩
  | .found (.json doc) =>
    match checkSchema doc with
    | .ok _ => ⟨.ok (some doc), none, 1, 0, none, none⟩
    | .error e => ⟨.ok none, none, 1, 0, some e, none⟩

/-- Modelled from the spec: the full load pipeline of the missing
`JsonFile` class — the behaviour of `read_json_file` with the value
validation of spec sections 4.3 and 4.4 wrapped around the schema-valid
case.  Caught `SettingValueError`s collapse to the absent result like
schema errors; the defaults path returns directly without a validation
pass; the exceptions `read_json_file` does not catch still escape. -/
def jsonFile_load (fs : FsRead) : Outcome :=
  match fs with
  | .notFound => ⟨.ok (some DEFAULT_SETTINGS), some (DEFAULT_SETTINGS, 4), 0, 0, none, none⟩
  | .ioError => ⟨.error .osError, none, 0, 0, none, none⟩
  | .found (.jsonNonObject _) => ⟨.error .attributeError, none, 0, 0, none, none⟩
  | .found (.malformed _) => ⟨.ok none, none, 0, 0, none, none⟩
  | .found (.json doc) =>
    match checkSchema doc with
    | .error e => ⟨.ok none, none, 1, 0, some e, none⟩
    | .ok _ =>
      match validate_settings doc with
      | .error e => ⟨.ok none, none, 1, 1, none, some e⟩
      | .ok _ => ⟨.ok (some doc), none, 1, 1, none, none⟩

/-- The `file_name` constraint of the data model: present, a string,
non-empty. -/
def fieldStrNonempty (doc : Settings) (k : String) : Bool :=
  match lookup doc k with
  | some (.str s) => decide (s ≠ "")
  | _ => false

/-- A field that must be present and a string (`font_name`). -/
def fieldIsStr (doc : Settings) (k : String) : Bool :=
  match lookup doc k with
  | some (.str _) => true
  | _ => false

/-- A field that must be present, an integer, and non-negative. -/
def fieldIntNonneg (doc : Settings) (k : String) : Bool :=
  match lookup doc k with
  | some (.int n) => decide (0 ≤ n)
  | _ => false

/-- All type and range constraints of the `Configuration` data model. -/
def isValidConfiguration (doc : Settings) : Bool :=
  fieldStrNonempty doc kFileName && fieldIsStr doc kFontName &&
  fieldIntNonneg doc kFontSize && fieldIntNonneg doc kWidth &&
  fieldIntNonneg doc kHeight && fieldIntNonneg doc kPadding

/-- `load_settings` from `config/__init__.py`: `SETTINGS != {}`, where the
module-level `SETTINGS` holds the cached load result and the absent
outcome is the empty dict. -/
def load_settings (settings : Settings) : Bool := settings != []

/-- What the process entry point does observably: the line it prints and
whether it exits (with which status) before any further startup. -/
structure EntryOutcome where
  printed : String
  exitCode : Option Nat
deriving DecidableEq

/-- The module body of `exam_app/__init__.py`: print a success indicator
and continue when `load_settings()` is truthy, otherwise print a failure
indicator and call `sys.exit()` — which raises `SystemExit(None)`, i.e.
terminates the process with exit status 0. -/
def exam_app_init (settings : Settings) : EntryOutcome :=
  if load_settings settings then ⟨"Successfully loaded settings.", none⟩
  else ⟨"Failed to load settings.", some 0⟩

/-- Per-process state of the configuration subsystem: whether the
`exam_app.config` module body has run (Python caches imported modules), or
aborted on an uncaught exception, plus filesystem and validation
counters. -/
structure ProcState where
  cache : Option Settings
  crashed : Bool
  fsReads : Nat
  fsWrites : Nat
  validations : Nat
deriving DecidableEq

/-- Process start: `exam_app.config` not yet imported, no filesystem
activity. -/
def initState : ProcState := ⟨none, false, 0, 0, 0⟩

/-- Importing `exam_app.config`: a no-op when the module is already cached
(or its import already failed); on first import the module body performs
the one physical load (`SETTINGS = read_setting_file()`), storing the
result — the absent outcome as the empty dict — or aborting the process if
the load raises. -/
def importConfig (fs : FsRead) (st : ProcState) : ProcState :=
  if st.crashed then st
  else
    match st.cache with
    | some _ => st
    | none =>
      let o := jsonFile_load fs
      let w := if o.written.isSome then 1 else 0
      match o.result with
      | .error _ =>
        ⟨none, true, st.fsReads + 1, st.fsWrites + w,
         st.validations + o.schemaChecks + o.valueChecks⟩
      | .ok r =>
        ⟨some (r.getD []), false, st.fsReads + 1, st.fsWrites + w,
         st.validations + o.schemaChecks + o.valueChecks⟩

/-- Calling `load_settings()`: a pure read of the cached `SETTINGS` value,
touching neither the filesystem nor the validators; unanswerable before a
successful import. -/
def callLoadSettings (st : ProcState) : Option Bool × ProcState :=
  if st.crashed then (none, st)
  else
    match st.cache with
    | some s => (some (load_settings s), st)
    | none => (none, st)

/-- Events a process can perform against this subsystem. -/
inductive AppEvent where
  | importC (fs : FsRead)
  | callLoad

/-- Small-step semantics of the process against the subsystem. -/
def stepEvent (st : ProcState) : AppEvent → ProcState
  | .importC fs => importConfig fs st
  | .callLoad => (callLoadSettings st).2

/-- Run a whole process history. -/
def runEvents (st : ProcState) (evs : List AppEvent) : ProcState :=
  evs.foldl stepEvent st

/-- Inductive invariant for the caching discipline: before the one-time
module initialization runs, no filesystem activity has happened, and in
every reachable state at most one read and one write have happened. -/
def CacheInv (st : ProcState) : Prop :=
  (st.cache = none ∧ st.crashed = false → st.fsReads = 0 ∧ st.fsWrites = 0) ∧
  st.fsReads ≤ 1 ∧ st.fsWrites ≤ 1

/-- A document missing `width`, with an extra key and a mistyped
`file_name`, exercising the precedence of the required-keys check. -/
def docMissingWidth : Settings :=
  [(kFileName, .int 3),
   (kFontName, .str ""),
   (kFontSize, .int 12),
   (kHeight, .int 2),
   (kPadding, .int 1),
   ("extra", .str "x")]

/-- A schema-valid document with an empty `file_name` and `width = -1`:
the fixed validation order reports the empty file name, not the width. -/
def docEmptyNegWidth : Settings :=
  [(kFileName, .str ""),
   (kFontName, .str ""),
   (kFontSize, .int 18),
   (kWidth, .int (-1)),
   (kHeight, .int 480),
   (kPadding, .int 8)]

/-- A schema-valid document whose only violation is `width = -1`. -/
def docNegWidth : Settings :=
  [(kFileName, .str "question.csv"),
   (kFontName, .str ""),
   (kFontSize, .int 18),
   (kWidth, .int (-1)),
   (kHeight, .int 480),
   (kPadding, .int 8)]

/-- Well-typed bindings preceding `width` in document order. -/
def docPreC10 : Settings :=
  [(kFileName, .str "question.csv"),
   (kFontName, .str ""),
   (kFontSize, .int 18)]

/-- Bindings following `width` in document order. -/
def docPostC10 : Settings :=
  [(kHeight, .int 480),
   (kPadding, .int 8)]

/-! ### Helper lemmas about the embedded operations -/

theorem lookup_mem {doc : Settings} {k : String} {v : PyValue}
    (h : lookup doc k = some v) : (k, v) ∈ doc := by
  induction doc with
  | nil => simp [lookup] at h
  | cons p rest ih =>
    obtain ⟨k', v'⟩ := p
    unfold lookup at h
    by_cases hk : k' = k
    · rw [if_pos hk] at h
      cases h
      subst hk
      exact List.mem_cons_self _ _
    · rw [if_neg hk] at h
      exact List.mem_cons_of_mem _ (ih h)

theorem exists_lookup_of_mem_keys {doc : Settings} {k : String}
    (h : k ∈ keys doc) : ∃ v, lookup doc k = some v := by
  induction doc with
  | nil => simp [keys] at h
  | cons p rest ih =>
    obtain ⟨k', v'⟩ := p
    by_cases hk : k' = k
    · exact ⟨v', by unfold lookup; rw [if_pos hk]⟩
    · have hmem : k ∈ keys rest := by
        rcases List.mem_cons.mp h with h1 | h1
        · exact absurd h1.symm hk
        · exact h1
      obtain ⟨v, hv⟩ := ih hmem
      exact ⟨v, by unfold lookup; rw [if_neg hk]; exact hv⟩

theorem typeCheck_ok_mem {l : Settings} (h : typeCheckItems l = .ok ())
    {k : String} {v : PyValue} (hm : (k, v) ∈ l) : typeOf v = defaultTypeOf k := by
  induction l with
  | nil => simp at hm
  | cons p rest ih =>
    obtain ⟨k', v'⟩ := p
    unfold typeCheckItems at h
    by_cases ht : typeOf v' = defaultTypeOf k'
    · rw [if_pos ht] at h
      rcases List.mem_cons.mp hm with h1 | h1
      · cases h1
        exact ht
      · exact ih h h1
    · rw [if_neg ht] at h
      exact Except.noConfusion h

theorem typeCheck_append {pre xs : Settings}
    (h : ∀ p ∈ pre, typeOf p.2 = defaultTypeOf p.1) :
    typeCheckItems (pre ++ xs) = typeCheckItems xs := by
  induction pre with
  | nil => rfl
  | cons p rest ih =>
    obtain ⟨k', v'⟩ := p
    have hkv : typeOf v' = defaultTypeOf k' := h (k', v') (List.mem_cons_self _ _)
    have hstep : typeCheckItems ((k', v') :: (rest ++ xs)) =
        typeCheckItems (rest ++ xs) := by
      show (if typeOf v' = defaultTypeOf k' then typeCheckItems (rest ++ xs)
        else Except.error (.invalidValueType k' (typeOf v') (defaultTypeOf k'))) =
          typeCheckItems (rest ++ xs)
      rw [if_pos hkv]
    rw [List.cons_append, hstep]
    exact ih fun p hp => h p (List.mem_cons_of_mem _ hp)

theorem not_sameKeySet_of_required {doc : Settings}
    (h : requiredKeysOf doc ≠ []) : ¬ sameKeySet (keys doc) defaultKeys := by
  obtain ⟨k, hk⟩ := List.exists_mem_of_ne_nil _ h
  have hk' := List.mem_filter.mp hk
  have hnotin : k ∉ keys doc := of_decide_eq_true hk'.2
  intro hss
  exact hnotin (hss.2 k hk'.1)

theorem not_sameKeySet_of_unwanted {doc : Settings}
    (h : unwantedKeysOf doc ≠ []) : ¬ sameKeySet (keys doc) defaultKeys := by
  obtain ⟨k, hk⟩ := List.exists_mem_of_ne_nil _ h
  have hk' := List.mem_filter.mp hk
  have hnotin : k ∉ defaultKeys := of_decide_eq_true hk'.2
  intro hss
  exact hnotin (hss.1 k hk'.1)

theorem sameKeySet_of_empty {doc : Settings}
    (hr : requiredKeysOf doc = []) (hu : unwantedKeysOf doc = []) :
    sameKeySet (keys doc) defaultKeys := by
  constructor
  · intro k hk
    by_contra hnot
    have : k ∈ unwantedKeysOf doc :=
      List.mem_filter.mpr ⟨hk, decide_eq_true hnot⟩
    rw [hu] at this
    simp at this
  · intro k hk
    by_contra hnot
    have : k ∈ requiredKeysOf doc :=
      List.mem_filter.mpr ⟨hk, decide_eq_true hnot⟩
    rw [hr] at this
    simp at this

theorem checkSchema_ok_elim {doc : Settings} (h : checkSchema doc = .ok ()) :
    sameKeySet (keys doc) defaultKeys ∧ typeCheckItems doc = .ok () := by
  unfold checkSchema at h
  split_ifs at h with h1 h2 h3
  all_goals first
    | exact ⟨h1, h⟩
    | exact absurd (sameKeySet_of_empty h2 h3) h1

theorem checkSchema_required {doc : Settings} (h : requiredKeysOf doc ≠ []) :
    checkSchema doc = .error (.requiredKeys (requiredKeysOf doc)) := by
  unfold checkSchema
  rw [if_neg (not_sameKeySet_of_required h), if_neg h]

theorem checkSchema_unwanted {doc : Settings} (hr : requiredKeysOf doc = [])
    (hu : unwantedKeysOf doc ≠ []) :
    checkSchema doc = .error (.unwantedKeys (unwantedKeysOf doc)) := by
  unfold checkSchema
  rw [if_neg (not_sameKeySet_of_unwanted hu), if_pos hr, if_neg hu]

theorem validate_ok_elim {doc : Settings} (h : validate_settings doc = .ok ()) :
    getStr doc kFileName ≠ "" ∧ ¬ getInt doc kFontSize < 0 ∧
    ¬ getInt doc kWidth < 0 ∧ ¬ getInt doc kHeight < 0 ∧
    ¬ getInt doc kPadding < 0 := by
  unfold validate_settings at h
  split_ifs at h with h1 h2 h3 h4 h5
  exact ⟨h1, h2, h3, h4, h5⟩

theorem eq_str_of_typeOf {v : PyValue} (h : typeOf v = .str) :
    ∃ s, v = .str s := by
  cases v <;> first | exact ⟨_, rfl⟩ | exact PyType.noConfusion h

theorem eq_int_of_typeOf {v : PyValue} (h : typeOf v = .int) :
    ∃ n, v = .int n := by
  cases v <;> first | exact ⟨_, rfl⟩ | exact PyType.noConfusion h

theorem lookup_field_type {doc : Settings} {k : String}
    (hs : sameKeySet (keys doc) defaultKeys) (ht : typeCheckItems doc = .ok ())
    (hk : k ∈ defaultKeys) :
    ∃ v, lookup doc k = some v ∧ typeOf v = defaultTypeOf k := by
  obtain ⟨v, hv⟩ := exists_lookup_of_mem_keys (hs.2 k hk)
  exact ⟨v, hv, typeCheck_ok_mem ht (lookup_mem hv)⟩

theorem fieldStrNonempty_of {doc : Settings} {k : String}
    (hs : sameKeySet (keys doc) defaultKeys) (ht : typeCheckItems doc = .ok ())
    (hk : k ∈ defaultKeys) (hd : defaultTypeOf k = .str)
    (hne : getStr doc k ≠ "") : fieldStrNonempty doc k = true := by
  obtain ⟨v, hl, hty⟩ := lookup_field_type hs ht hk
  rw [hd] at hty
  obtain ⟨s, rfl⟩ := eq_str_of_typeOf hty
  have hg : getStr doc k = s := by unfold getStr; rw [hl]
  unfold fieldStrNonempty
  rw [hl]
  exact decide_eq_true (hg ▸ hne)

theorem fieldIsStr_of {doc : Settings} {k : String}
    (hs : sameKeySet (keys doc) defaultKeys) (ht : typeCheckItems doc = .ok ())
    (hk : k ∈ defaultKeys) (hd : defaultTypeOf k = .str) :
    fieldIsStr doc k = true := by
  obtain ⟨v, hl, hty⟩ := lookup_field_type hs ht hk
  rw [hd] at hty
  obtain ⟨s, rfl⟩ := eq_str_of_typeOf hty
  unfold fieldIsStr
  rw [hl]

theorem fieldIntNonneg_of {doc : Settings} {k : String}
    (hs : sameKeySet (keys doc) defaultKeys) (ht : typeCheckItems doc = .ok ())
    (hk : k ∈ defaultKeys) (hd : defaultTypeOf k = .int)
    (hnn : ¬ getInt doc k < 0) : fieldIntNonneg doc k = true := by
  obtain ⟨v, hl, hty⟩ := lookup_field_type hs ht hk
  rw [hd] at hty
  obtain ⟨n, rfl⟩ := eq_int_of_typeOf hty
  have hg : getInt doc k = n := by unfold getInt; rw [hl]
  unfold fieldIntNonneg
  rw [hl]
  exact decide_eq_true (Int.not_lt.mp (hg ▸ hnn))

theorem valid_of_checks {doc : Settings} (hcs : checkSchema doc = .ok ())
    (hv : validate_settings doc = .ok ()) : isValidConfiguration doc = true := by
  obtain ⟨hs, ht⟩ := checkSchema_ok_elim hcs
  obtain ⟨h1, h2, h3, h4, h5⟩ := validate_ok_elim hv
  have hA : fieldStrNonempty doc kFileName = true :=
    fieldStrNonempty_of hs ht (by decide) rfl h1
  have hB : fieldIsStr doc kFontName = true :=
    fieldIsStr_of hs ht (by decide) rfl
  have hC : fieldIntNonneg doc kFontSize = true :=
    fieldIntNonneg_of hs ht (by decide) rfl h2
  have hD : fieldIntNonneg doc kWidth = true :=
    fieldIntNonneg_of hs ht (by decide) rfl h3
  have hE : fieldIntNonneg doc kHeight = true :=
    fieldIntNonneg_of hs ht (by decide) rfl h4
  have hF : fieldIntNonneg doc kPadding = true :=
    fieldIntNonneg_of hs ht (by decide) rfl h5
  simp [isValidConfiguration, hA, hB, hC, hD, hE, hF]

theorem read_json_file_json_eq (doc : Settings) :
    read_json_file (.found (.json doc)) =
      match checkSchema doc with
      | .ok _ => ⟨.ok (some doc), none, 1, 0, none, none⟩
      | .error e => ⟨.ok none, none, 1, 0, some e, none⟩ := rfl

theorem jsonFile_load_json_eq (doc : Settings) :
    jsonFile_load (.found (.json doc)) =
      match checkSchema doc with
      | .error e => ⟨.ok none, none, 1, 0, some e, none⟩
      | .ok _ =>
        match validate_settings doc with
        | .error e => ⟨.ok none, none, 1, 1, none, some e⟩
        | .ok _ => ⟨.ok (some doc), none, 1, 1, none, none⟩ := rfl

/-! ### Claim theorems -/

/-- C4 (counterexample): the load does not collapse every failure kind —
on a filesystem failure other than absence (e.g. a permission error while
opening the file) no `.ok` result is returned: the exception escapes the
`try` block of `read_json_file`, whose handlers cover only
`FileNotFoundError`, `JSONDecodeError` and `JsonSchemaError`. -/
theorem read_raises_on_ioError :
    ¬ ∃ r, (read_json_file FsRead.ioError).result = .ok r :=
  fun ⟨_, h⟩ => Except.noConfusion h

/-- C4 (amended): for every input that is the file's absence, a malformed
file, or a well-formed JSON object document, `read_json_file` raises no
failure to its caller: it returns either a settings dict or `None`; only
a non-`FileNotFoundError` filesystem failure (and a well-formed non-object
document) escapes uncaught. -/
theorem read_total_on_handled_inputs : ∀ fs : FsRead,
    (fs = FsRead.notFound ∨ (∃ s, fs = .found (.malformed s)) ∨
      (∃ d, fs = .found (.json d))) →
    ∃ r, (read_json_file fs).result = .ok r := by
  rintro fs (rfl | ⟨s, rfl⟩ | ⟨d, rfl⟩)
  · exact ⟨some DEFAULT_SETTINGS, rfl⟩
  · exact ⟨none, rfl⟩
  · rw [read_json_file_json_eq]
    cases h : checkSchema d with
    | ok u => exact ⟨some d, rfl⟩
    | error e => exact ⟨none, rfl⟩

/-- C4 (witness): the amended statement at the concrete input `notFound`. -/
theorem read_total_witness :
    ∃ r, (read_json_file FsRead.notFound).result = .ok r :=
  read_total_on_handled_inputs FsRead.notFound (Or.inl rfl)

/-- C5: the key-set checks run before any per-key type comparison and the
required-keys difference is reported first: any document with a missing
schema key is rejected with `RequiredKeysError` carrying exactly the
missing-keys difference, regardless of extra keys or type mismatches; a
document with only extra keys gets `UnwantedKeysError`; in particular a
document missing exactly one key gets `RequiredKeysError` naming exactly
that key. -/
theorem schema_check_order :
    (∀ doc : Settings, requiredKeysOf doc ≠ [] →
      (read_json_file (.found (.json doc))).result = .ok none ∧
      (read_json_file (.found (.json doc))).loggedSchema =
        some (.requiredKeys (requiredKeysOf doc))) ∧
    (∀ doc : Settings, requiredKeysOf doc = [] → unwantedKeysOf doc ≠ [] →
      (read_json_file (.found (.json doc))).result = .ok none ∧
      (read_json_file (.found (.json doc))).loggedSchema =
        some (.unwantedKeys (unwantedKeysOf doc))) ∧
    (∀ (doc : Settings) (k : String), requiredKeysOf doc = [k] →
      (read_json_file (.found (.json doc))).result = .ok none ∧
      (read_json_file (.found (.json doc))).loggedSchema =
        some (.requiredKeys [k])) := by
  refine ⟨?_, ?_, ?_⟩
  · intro doc h
    rw [read_json_file_json_eq, checkSchema_required h]
    exact ⟨rfl, rfl⟩
  · intro doc hr hu
    rw [read_json_file_json_eq, checkSchema_unwanted hr hu]
    exact ⟨rfl, rfl⟩
  · intro doc k h
    have hne : requiredKeysOf doc ≠ [] := by rw [h]; exact List.cons_ne_nil _ _
    have := checkSchema_required hne
    rw [h] at this
    rw [read_json_file_json_eq, this]
    exact ⟨rfl, rfl⟩

/-- C5 (witness): a document missing `width`, with an extra key and a
mistyped `file_name`, is rejected with `RequiredKeysError` naming exactly
`width`. -/
theorem schema_check_order_witness :
    (read_json_file (.found (.json docMissingWidth))).result = .ok none ∧
    (read_json_file (.found (.json docMissingWidth))).loggedSchema =
      some (.requiredKeys [kWidth]) :=
  schema_check_order.2.2 docMissingWidth kWidth (by decide)

/-- C6: when the file is absent, the load writes the canonical defaults
with JSON indent 4, returns those defaults directly as the result, and
runs no schema pass (and, in the full pipeline, no value pass). -/
theorem defaults_materialized :
    read_json_file FsRead.notFound =
      ⟨.ok (some DEFAULT_SETTINGS), some (DEFAULT_SETTINGS, 4), 0, 0, none, none⟩ ∧
    jsonFile_load FsRead.notFound =
      ⟨.ok (some DEFAULT_SETTINGS), some (DEFAULT_SETTINGS, 4), 0, 0, none, none⟩ ∧
    DEFAULT_SETTINGS =
      [(kFileName, .str "question.csv"), (kFontName, .str ""),
       (kFontSize, .int 18), (kWidth, .int 640), (kHeight, .int 480),
       (kPadding, .int 8)] :=
  ⟨rfl, rfl, rfl⟩

/-- C7: an existing file with malformed (non-parseable) contents yields
the absent result and no write happens: neither `read_json_file` nor the
full pipeline writes a defaults file over it. -/
theorem malformed_no_write : ∀ raw : String,
    (read_json_file (.found (.malformed raw))).result = .ok none ∧
    (read_json_file (.found (.malformed raw))).written = none ∧
    (jsonFile_load (.found (.malformed raw))).result = .ok none ∧
    (jsonFile_load (.found (.malformed raw))).written = none :=
  fun _ => ⟨rfl, rfl, rfl, rfl⟩

/-- C10: the per-key type check compares runtime types by identity against
the default value's type: in a document whose key set matches the schema,
the first binding (in document iteration order) of an integer field whose
value is a `bool` or a `float` is rejected with `InvalidValueTypeError`
naming that key, its actual type, and the expected `int`. -/
theorem exact_type_identity : ∀ (pre post : Settings) (k : String) (v : PyValue),
    sameKeySet (keys (pre ++ (k, v) :: post)) defaultKeys →
    (∀ p ∈ pre, typeOf p.2 = defaultTypeOf p.1) →
    defaultTypeOf k = .int →
    (typeOf v = .bool ∨ typeOf v = .float) →
    (read_json_file (.found (.json (pre ++ (k, v) :: post)))).result = .ok none ∧
    (read_json_file (.found (.json (pre ++ (k, v) :: post)))).loggedSchema =
      some (.invalidValueType k (typeOf v) .int) := by
  intro pre post k v hs hpre hdk hbf
  have hne : ¬ typeOf v = defaultTypeOf k := by
    rw [hdk]
    rcases hbf with h | h <;> rw [h] <;> exact fun hc => PyType.noConfusion hc
  have hstep : typeCheckItems ((k, v) :: post) =
      .error (.invalidValueType k (typeOf v) (defaultTypeOf k)) := by
    show (if typeOf v = defaultTypeOf k then typeCheckItems post
      else Except.error (.invalidValueType k (typeOf v) (defaultTypeOf k))) = _
    rw [if_neg hne]
  have hcs : checkSchema (pre ++ (k, v) :: post) =
      .error (.invalidValueType k (typeOf v) (defaultTypeOf k)) := by
    unfold checkSchema
    rw [if_pos hs, typeCheck_append hpre, hstep]
  rw [hdk] at hcs
  rw [read_json_file_json_eq, hcs]
  exact ⟨rfl, rfl⟩

/-- C10 (witness): `width` bound to the boolean `true` in an otherwise
default document is rejected with `InvalidValueTypeError` on `width`,
actual type `bool`, expected `int`. -/
theorem exact_type_identity_witness :
    (read_json_file
      (.found (.json (docPreC10 ++ (kWidth, PyValue.bool true) :: docPostC10)))).result =
        .ok none ∧
    (read_json_file
      (.found (.json (docPreC10 ++ (kWidth, PyValue.bool true) :: docPostC10)))).loggedSchema =
        some (.invalidValueType kWidth (typeOf (PyValue.bool true)) .int) :=
  exact_type_identity docPreC10 docPostC10 kWidth (PyValue.bool true)
    (by decide) (by decide) (by decide) (Or.inl rfl)

/-- C1: every configuration the full load pipeline returns (rather than
the absent outcome or an escaping exception) satisfies all type and range
constraints of the data model: `file_name` a non-empty string, `font_name`
a string, and `font_size`, `width`, `height`, `padding` non-negative
integers. -/
theorem loaded_config_valid : ∀ (fs : FsRead) (c : Settings),
    (jsonFile_load fs).result = .ok (some c) → isValidConfiguration c = true := by
  intro fs c h
  match fs with
  | .ioError => exact Except.noConfusion h
  | .found (.jsonNonObject r) => exact Except.noConfusion h
  | .found (.malformed r) =>
    rw [show (jsonFile_load (.found (.malformed r))).result = .ok none from rfl] at h
    simp at h
  | .notFound =>
    have hd : (jsonFile_load FsRead.notFound).result = .ok (some DEFAULT_SETTINGS) := rfl
    rw [hd] at h
    have hc : DEFAULT_SETTINGS = c := Option.some.inj (Except.ok.inj h)
    rw [← hc]
    decide
  | .found (.json doc) =>
    rw [jsonFile_load_json_eq] at h
    cases hcs : checkSchema doc with
    | error e =>
      rw [hcs] at h
      simp at h
    | ok u =>
      rw [hcs] at h
      cases hv : validate_settings doc with
      | error e =>
        rw [hv] at h
        simp at h
      | ok u' =>
        rw [hv] at h
        simp at h
        rw [← h]
        exact valid_of_checks hcs hv

/-- C1 (witness): the defaults path returns a constraint-satisfying
configuration. -/
theorem loaded_config_valid_witness : isValidConfiguration DEFAULT_SETTINGS = true :=
  loaded_config_valid FsRead.notFound DEFAULT_SETTINGS rfl

/-- C2 (counterexample): a schema-valid document with `width = -1` is not
always rejected with `InvalidWidthError`: when its `file_name` is also
empty, the fixed-order validation reports `EmptyFileNameError` instead. -/
theorem neg_width_not_always_width_error :
    checkSchema docEmptyNegWidth = .ok () ∧
    getInt docEmptyNegWidth kWidth = -1 ∧
    (jsonFile_load (.found (.json docEmptyNegWidth))).loggedValue =
      some SettingValueError.emptyFileName ∧
    (jsonFile_load (.found (.json docEmptyNegWidth))).loggedValue ≠
      some (SettingValueError.invalidWidth (-1)) :=
  ⟨rfl, rfl, rfl, by decide⟩

/-- C2 (amended): a document that passes the schema check and the earlier
value checks (non-empty `file_name`, non-negative `font_size`) but has a
negative `width` is rejected with `InvalidWidthError` carrying that width,
and the result is the absent outcome. -/
theorem neg_width_rejected : ∀ doc : Settings,
    checkSchema doc = .ok () →
    getStr doc kFileName ≠ "" →
    0 ≤ getInt doc kFontSize →
    getInt doc kWidth < 0 →
    (jsonFile_load (.found (.json doc))).result = .ok none ∧
    (jsonFile_load (.found (.json doc))).loggedValue =
      some (.invalidWidth (getInt doc kWidth)) := by
  intro doc hcs hfn hfs hw
  have hv : validate_settings doc = .error (.invalidWidth (getInt doc kWidth)) := by
    unfold validate_settings
    rw [if_neg hfn, if_neg (Int.not_lt.mpr hfs), if_pos hw]
  rw [jsonFile_load_json_eq, hcs, hv]
  exact ⟨rfl, rfl⟩

/-- C2 (witness): the amended statement at the document whose only
violation is `width = -1`. -/
theorem neg_width_rejected_witness :
    (jsonFile_load (.found (.json docNegWidth))).result = .ok none ∧
    (jsonFile_load (.found (.json docNegWidth))).loggedValue =
      some (.invalidWidth (getInt docNegWidth kWidth)) :=
  neg_width_rejected docNegWidth rfl (by decide) (by decide) (by decide)

/-- C3: a document that passes the schema check and has an empty
`file_name` is rejected with `EmptyFileNameError` (the first check in the
fixed order, so no other field can pre-empt it) and the result is the
absent outcome — whatever the other fields hold. -/
theorem empty_file_name_rejected : ∀ doc : Settings,
    checkSchema doc = .ok () →
    getStr doc kFileName = "" →
    (jsonFile_load (.found (.json doc))).result = .ok none ∧
    (jsonFile_load (.found (.json doc))).loggedValue =
      some SettingValueError.emptyFileName := by
  intro doc hcs hfn
  have hv : validate_settings doc = .error .emptyFileName := by
    unfold validate_settings
    rw [if_pos hfn]
  rw [jsonFile_load_json_eq, hcs, hv]
  exact ⟨rfl, rfl⟩

/-- C3 (witness): the document with an empty `file_name` and otherwise
valid fields is rejected with `EmptyFileNameError`. -/
theorem empty_file_name_rejected_witness :
    (jsonFile_load (.found (.json docEmptyNegWidth))).result = .ok none ∧
    (jsonFile_load (.found (.json docEmptyNegWidth))).loggedValue =
      some SettingValueError.emptyFileName :=
  empty_file_name_rejected docEmptyNegWidth rfl rfl

/-- C8 (counterexample): with the absent outcome the entry point prints
the failure indicator and terminates, but via a bare `sys.exit()`, i.e.
with exit status 0 — not with any non-zero status. -/
theorem entry_exit_status_zero :
    (exam_app_init []).printed = "Failed to load settings." ∧
    (exam_app_init []).exitCode = some 0 ∧
    ¬ ∃ n, (exam_app_init []).exitCode = some n ∧ n ≠ 0 := by
  refine ⟨rfl, rfl, ?_⟩
  rintro ⟨n, hn, hne⟩
  have h0 : (exam_app_init []).exitCode = some 0 := rfl
  rw [h0] at hn
  exact hne (Option.some.inj hn).symm

/-- C8 (amended): with the absent outcome (`SETTINGS = {}`) the entry
point prints the failure indicator and terminates before any UI via
`sys.exit()`, whose exit status is 0; with a non-absent outcome it prints
the success indicator and startup proceeds. -/
theorem entry_point_behaviour : ∀ s : Settings,
    (s = [] → exam_app_init s = ⟨"Failed to load settings.", some 0⟩) ∧
    (s ≠ [] → exam_app_init s = ⟨"Successfully loaded settings.", none⟩) := by
  intro s
  constructor
  · rintro rfl
    rfl
  · intro hne
    cases s with
    | nil => exact absurd rfl hne
    | cons p l => rfl

/-- C8 (witness): the amended statement at the absent outcome. -/
theorem entry_point_behaviour_witness :
    exam_app_init [] = ⟨"Failed to load settings.", some 0⟩ :=
  (entry_point_behaviour []).1 rfl

theorem callLoadSettings_snd (st : ProcState) : (callLoadSettings st).2 = st := by
  unfold callLoadSettings
  split
  · rfl
  · split <;> rfl

theorem importConfig_cached (fs : FsRead) (st : ProcState)
    (h : st.cache.isSome = true) : importConfig fs st = st := by
  obtain ⟨cache, crashed, r, w, vl⟩ := st
  cases crashed
  · cases cache with
    | some s => rfl
    | none => simp at h
  · rfl

theorem cacheInv_step (st : ProcState) (e : AppEvent) (h : CacheInv st) :
    CacheInv (stepEvent st e) := by
  cases e with
  | callLoad =>
    have hstep : stepEvent st .callLoad = st := callLoadSettings_snd st
    rw [hstep]
    exact h
  | importC fs =>
    obtain ⟨cache, crashed, r, w, vl⟩ := st
    cases crashed
    · cases cache with
      | some s => exact h
      | none =>
        obtain ⟨h0, hr, hw⟩ := h
        obtain ⟨hr0, hw0⟩ := h0 ⟨rfl, rfl⟩
        subst hr0
        subst hw0
        show CacheInv (importConfig fs ⟨none, false, 0, 0, vl⟩)
        have heq : importConfig fs (⟨none, false, 0, 0, vl⟩ : ProcState) =
            match (jsonFile_load fs).result with
            | .error _ =>
              ⟨none, true, 0 + 1,
               0 + (if (jsonFile_load fs).written.isSome then 1 else 0),
               vl + (jsonFile_load fs).schemaChecks + (jsonFile_load fs).valueChecks⟩
            | .ok r =>
              ⟨some (r.getD []), false, 0 + 1,
               0 + (if (jsonFile_load fs).written.isSome then 1 else 0),
               vl + (jsonFile_load fs).schemaChecks + (jsonFile_load fs).valueChecks⟩ := rfl
        rw [heq]
        cases hres : (jsonFile_load fs).result with
        | error e' =>
          refine ⟨fun hc => absurd hc.2 (by simp), ?_, ?_⟩
          · show 0 + 1 ≤ 1
            omega
          · show 0 + (if (jsonFile_load fs).written.isSome then 1 else 0) ≤ 1
            split <;> omega
        | ok rv =>
          refine ⟨fun hc => absurd hc.1 (by simp), ?_, ?_⟩
          · show 0 + 1 ≤ 1
            omega
          · show 0 + (if (jsonFile_load fs).written.isSome then 1 else 0) ≤ 1
            split <;> omega
    · exact h

theorem cacheInv_run (evs : List AppEvent) (st : ProcState) (h : CacheInv st) :
    CacheInv (runEvents st evs) := by
  induction evs generalizing st with
  | nil => exact h
  | cons e rest ih =>
    have hstep : runEvents st (e :: rest) = runEvents (stepEvent st e) rest := rfl
    rw [hstep]
    exact ih _ (cacheInv_step st e h)

/-- C9: the load is memoized per process. Calling `load_settings` never
changes process state (no filesystem read or write, no validation pass),
so a second call returns a result identical to the first — including the
absent outcome; re-importing the already-initialized module is a no-op
even against a different filesystem world; and over every process history
starting at process start, at most one physical read and one write
occur. -/
theorem load_memoized :
    (∀ st : ProcState, (callLoadSettings st).2 = st) ∧
    (∀ st : ProcState,
      callLoadSettings ((callLoadSettings st).2) = callLoadSettings st) ∧
    (∀ (fs : FsRead) (st : ProcState), st.cache.isSome = true →
      importConfig fs st = st) ∧
    (∀ evs : List AppEvent, (runEvents initState evs).fsReads ≤ 1 ∧
      (runEvents initState evs).fsWrites ≤ 1) := by
  refine ⟨callLoadSettings_snd, ?_, importConfig_cached, ?_⟩
  · intro st
    rw [callLoadSettings_snd st]
  · intro evs
    have h := cacheInv_run evs initState ⟨fun _ => ⟨rfl, rfl⟩, by decide, by decide⟩
    exact ⟨h.2.1, h.2.2⟩

/-- C9 (witness): after a first load against an absent file, a re-import
against a failing filesystem is a no-op: the cached state is returned
without re-executing the pipeline. -/
theorem load_memoized_witness :
    importConfig FsRead.ioError (importConfig FsRead.notFound initState) =
      importConfig FsRead.notFound initState :=
  load_memoized.2.2.1 FsRead.ioError (importConfig FsRead.notFound initState) rfl

end ExamApp
